import Mathlib

/-!
Verification development for the LEGO Brick Workflow Interpreter
(`src/main.py`).  The core of the program is a pair of pure functions:

* `detect_bricks_from_image` — turns an image into a list of `Brick`
  records by thresholding HSV color masks, extracting contours, and
  computing area-weighted centroids;
* `bricks_to_workflow` — turns the brick list into a `WorkflowGraph`
  (nodes sorted by their x coordinate and linked sequentially) or raises
  a validation `ValueError`.

We embed both shallowly.  Image-analysis primitives supplied by OpenCV
(mask extraction, contour finding, moments) are treated as capabilities:
a contour is modelled by the quantities the code reads from it (its
`contourArea` and its spatial moments m00, m10, m01), and the per-pixel
`inRange` test on HSV triples is modelled directly from the constant
range table `HSV_RANGES`.  Python floats are modelled as rationals;
Python's `sorted` (a stable ascending sort by the given key) is modelled
by a stable insertion sort on the x key.
-/

namespace LegoWorkflow

/-- `Brick` from `main.py` (lines 20–26): a detected LEGO brick. -/
structure Brick where
  id : String
  color : String
  x : ℚ
  y : ℚ
  deriving DecidableEq, Repr

/-- `Node` from `main.py` (lines 28–31): a workflow graph node. -/
structure Node where
  id : String
  type : String
  deriving DecidableEq, Repr

/-- `WorkflowGraph` from `main.py` (lines 33–36). -/
structure WorkflowGraph where
  nodes : List Node
  edges : List (String × String)
  deriving DecidableEq, Repr

/-- The `COLOR_TO_TYPE` dictionary (lines 40–45); `none` models a key
that is absent from the dictionary. -/
def COLOR_TO_TYPE : String → Option String
  | "green" => some "Start"
  | "blue" => some "Action"
  | "yellow" => some "Decision"
  | "red" => some "End"
  | _ => none

/-- The validation errors raised by `bricks_to_workflow` as
`ValueError`s (lines 147–168), named by kind; the `Duplicate*` kinds
carry the observed count interpolated into the message f-string. -/
inductive WorkflowError where
  | noInterpretableObjects
  | missingStart
  | duplicateStart (count : Nat)
  | missingEnd
  | duplicateEnd (count : Nat)
  deriving DecidableEq, Repr

/-- The message string attached to each `ValueError` in
`bricks_to_workflow` (lines 148, 161, 163, 166, 168). -/
def errMessage : WorkflowError → String
  | .noInterpretableObjects => "No interpretable bricks found"
  | .missingStart => "Workflow must have exactly one Start node (green brick)"
  | .duplicateStart n =>
      "Workflow has " ++ toString n ++ " Start nodes, but must have exactly one"
  | .missingEnd => "Workflow must have exactly one End node (red brick)"
  | .duplicateEnd n =>
      "Workflow has " ++ toString n ++ " End nodes, but must have exactly one"

instance : DecidableRel (fun a b : Brick => a.x ≤ b.x) :=
  fun a b => inferInstanceAs (Decidable (a.x ≤ b.x))

instance : IsTotal Brick (fun a b : Brick => a.x ≤ b.x) :=
  ⟨fun a b => le_total a.x b.x⟩

instance : IsTrans Brick (fun a b : Brick => a.x ≤ b.x) :=
  ⟨fun _ _ _ h₁ h₂ => le_trans h₁ h₂⟩

/-- The model of `sorted(valid_bricks, key=lambda b: b.x)` at line 151:
Python's `sorted` is a stable ascending sort by the key, realised here
by insertion sort with the non-strict key comparison (which keeps
equal-`x` elements in their input order). -/
def sortBricks (l : List Brick) : List Brick :=
  l.insertionSort fun a b => a.x ≤ b.x

/-- Line 145: `[b for b in bricks if b.color in COLOR_TO_TYPE]`. -/
def validBricks (bricks : List Brick) : List Brick :=
  bricks.filter fun b => (COLOR_TO_TYPE b.color).isSome

/-- Line 154: `Node(id=brick.id, type=COLOR_TO_TYPE[brick.color])`.
The dictionary lookup cannot fail on a brick that survived the filter;
`getD ""` supplies an arbitrary value off that domain. -/
def mkNode (b : Brick) : Node :=
  ⟨b.id, (COLOR_TO_TYPE b.color).getD ""⟩

/-- The node list built at line 154 from the sorted valid bricks. -/
def nodesOf (bricks : List Brick) : List Node :=
  (sortBricks (validBricks bricks)).map mkNode

/-- Line 157: `len([n for n in nodes if n.type == "Start"])`. -/
def startCount (bricks : List Brick) : Nat :=
  ((nodesOf bricks).filter fun n => n.type == "Start").length

/-- Line 158: `len([n for n in nodes if n.type == "End"])`. -/
def endCount (bricks : List Brick) : Nat :=
  ((nodesOf bricks).filter fun n => n.type == "End").length

/-- The edge loop at lines 171–173: one edge
`(sorted_bricks[i].id, sorted_bricks[i+1].id)` per consecutive pair of
the sorted brick list. -/
def edgesOf (bricks : List Brick) : List (String × String) :=
  let sorted := sortBricks (validBricks bricks)
  (sorted.zip sorted.tail).map fun p => (p.1.id, p.2.id)

/-- `bricks_to_workflow` (lines 131–175): filter to recognized colors,
fail on an empty remainder, sort by x, map to nodes, validate the
Start/End counts in the order the code checks them (each `raise` is an
early return), and link the sorted bricks with consecutive edges. -/
def bricks_to_workflow (bricks : List Brick) : Except WorkflowError WorkflowGraph :=
  if (validBricks bricks).isEmpty then .error .noInterpretableObjects
  else if startCount bricks == 0 then .error .missingStart
  else if startCount bricks > 1 then .error (.duplicateStart (startCount bricks))
  else if endCount bricks == 0 then .error .missingEnd
  else if endCount bricks > 1 then .error (.duplicateEnd (endCount bricks))
  else .ok ⟨nodesOf bricks, edgesOf bricks⟩

/-! ### Detector model -/

/-- A pixel of the HSV image produced at line 82; OpenCV uses hue on a
0–180 scale and saturation/value on 0–255, each stored in a byte. -/
structure HSVPixel where
  h : Nat
  s : Nat
  v : Nat
  deriving DecidableEq, Repr

/-- Per-pixel semantics of `cv2.inRange(img_hsv, lo, hi)`: inclusive
bounds on every channel. -/
def inRange (lo hi : Nat × Nat × Nat) (p : HSVPixel) : Bool :=
  decide (lo.1 ≤ p.h ∧ p.h ≤ hi.1 ∧ lo.2.1 ≤ p.s ∧ p.s ≤ hi.2.1 ∧
    lo.2.2 ≤ p.v ∧ p.v ≤ hi.2.2)

/-- The green range of `HSV_RANGES` (line 50). -/
def greenMask (p : HSVPixel) : Bool := inRange (35, 50, 50) (85, 255, 255) p

/-- The blue range of `HSV_RANGES` (line 51). -/
def blueMask (p : HSVPixel) : Bool := inRange (90, 50, 50) (130, 255, 255) p

/-- The yellow range of `HSV_RANGES` (line 52). -/
def yellowMask (p : HSVPixel) : Bool := inRange (20, 100, 100) (35, 255, 255) p

/-- The red mask (lines 53–57 and 89–92): `cv2.bitwise_or` of the two
red ranges, because red hue wraps around the circle. -/
def redMask (p : HSVPixel) : Bool :=
  inRange (0, 50, 50) (10, 255, 255) p || inRange (170, 50, 50) (180, 255, 255) p

/-- A contour as the detector reads it: `cv2.contourArea(contour)` and
the spatial moments m00, m10, m01 from `cv2.moments(contour)` (lines
104–116).  Contour extraction itself is an external capability. -/
structure Contour where
  area : ℚ
  m00 : ℚ
  m10 : ℚ
  m01 : ℚ
  deriving DecidableEq, Repr

/-- The per-contour loop of `detect_bricks_from_image` (lines 104–125)
for one color mask: skip a contour whose area is below 100, skip a
contour whose zeroth moment is zero, otherwise emit a brick named
`b{counter}` at the centroid (m10/m00, m01/m00) and advance the
counter.  Returns the emitted bricks and the final counter value. -/
def processContours (color : String) : List Contour → Nat → List Brick × Nat
  | [], counter => ([], counter)
  | c :: cs, counter =>
    if c.area < 100 then processContours color cs counter
    else if c.m00 = 0 then processContours color cs counter
    else
      let rest := processContours color cs (counter + 1)
      (⟨"b" ++ toString counter, color, c.m10 / c.m00, c.m01 / c.m00⟩ :: rest.1,
        rest.2)

/-- The contour lists the external OpenCV capability returns for each
color mask of one image, in the fixed `HSV_RANGES` iteration order
green, blue, yellow, red (lines 87–102). -/
structure ImageContours where
  green : List Contour
  blue : List Contour
  yellow : List Contour
  red : List Contour
  deriving DecidableEq, Repr

/-- `detect_bricks_from_image` (lines 62–127) over the contour
abstraction: process each color's contours in the fixed enumeration
order, threading the brick counter (initially 1) across colors. -/
def detect_bricks_from_image (img : ImageContours) : List Brick :=
  let g := processContours "green" img.green 1
  let b := processContours "blue" img.blue g.2
  let y := processContours "yellow" img.yellow b.2
  let r := processContours "red" img.red y.2
  g.1 ++ b.1 ++ y.1 ++ r.1

/-! ### Helper lemmas -/

/-- A node built by `mkNode` has type `"Start"` exactly when its brick
is green. -/
lemma mkNode_type_start (b : Brick) : ((mkNode b).type == "Start") = (b.color == "green") := by
  unfold mkNode COLOR_TO_TYPE
  split <;> simp_all

/-- A node built by `mkNode` has type `"End"` exactly when its brick is
red. -/
lemma mkNode_type_end (b : Brick) : ((mkNode b).type == "End") = (b.color == "red") := by
  unfold mkNode COLOR_TO_TYPE
  split <;> simp_all

/-- `sortBricks` permutes its input. -/
lemma sortBricks_perm (l : List Brick) : List.Perm (sortBricks l) l :=
  List.perm_insertionSort _ l

/-- The Start count the code validates equals the number of green
bricks among the recognized ones. -/
lemma startCount_eq_green (bs : List Brick) :
    startCount bs = ((validBricks bs).filter fun b => b.color == "green").length := by
  unfold startCount nodesOf
  rw [List.filter_map]
  rw [List.length_map]
  have hp : (fun b : Brick => (mkNode b).type == "Start") = fun b : Brick => b.color == "green" :=
    funext fun b => mkNode_type_start b
  rw [show ((fun n : Node => n.type == "Start") ∘ mkNode) =
      fun b : Brick => (mkNode b).type == "Start" from rfl, hp]
  exact ((sortBricks_perm (validBricks bs)).filter _).length_eq

/-- The End count the code validates equals the number of red bricks
among the recognized ones. -/
lemma endCount_eq_red (bs : List Brick) :
    endCount bs = ((validBricks bs).filter fun b => b.color == "red").length := by
  unfold endCount nodesOf
  rw [List.filter_map]
  rw [List.length_map]
  have hp : (fun b : Brick => (mkNode b).type == "End") = fun b : Brick => b.color == "red" :=
    funext fun b => mkNode_type_end b
  rw [show ((fun n : Node => n.type == "End") ∘ mkNode) =
      fun b : Brick => (mkNode b).type == "End" from rfl, hp]
  exact ((sortBricks_perm (validBricks bs)).filter _).length_eq

/-- Inversion of the success case of `bricks_to_workflow`: the returned
graph is the nodes/edges of the sorted valid bricks, every validation
check passed, and the valid list was nonempty. -/
lemma bricks_to_workflow_ok {bs : List Brick} {g : WorkflowGraph}
    (h : bricks_to_workflow bs = .ok g) :
    g.nodes = nodesOf bs ∧ g.edges = edgesOf bs ∧
      startCount bs = 1 ∧ endCount bs = 1 ∧ validBricks bs ≠ [] := by
  unfold bricks_to_workflow at h
  split at h
  · cases h
  · split at h
    · cases h
    · split at h
      · cases h
      · split at h
        · cases h
        · split at h
          · cases h
          · cases h
            rename_i hempty hs0 hs1 he0 he1
            refine ⟨rfl, rfl, ?_, ?_, ?_⟩
            · simp only [beq_iff_eq] at hs0
              omega
            · simp only [beq_iff_eq] at he0
              omega
            · simpa [List.isEmpty_iff] using hempty

/-- The sorted brick list has ascending `x` on every consecutive pair. -/
lemma sortBricks_sorted (l : List Brick) :
    List.Chain' (fun a b : Brick => a.x ≤ b.x) (sortBricks l) :=
  (List.sorted_insertionSort _ l).chain'

/-- The edge list is the node list zipped with its own tail, projected
to identifiers (`mkNode` preserves the identifier). -/
lemma edgesOf_eq_nodes_zip (bs : List Brick) :
    edgesOf bs = ((nodesOf bs).zip (nodesOf bs).tail).map fun p => (p.1.id, p.2.id) := by
  unfold edgesOf nodesOf
  generalize sortBricks (validBricks bs) = s
  induction s with
  | nil => rfl
  | cons a t ih =>
    cases t with
    | nil => rfl
    | cons c u =>
      simp only [List.map_cons, List.tail_cons, List.zip_cons_cons] at *
      simp [ih]
      exact ⟨rfl, rfl⟩

/-- The edge list is one shorter than the node list (empty lists
included, by truncated subtraction). -/
lemma edgesOf_length (bs : List Brick) :
    (edgesOf bs).length = (nodesOf bs).length - 1 := by
  unfold edgesOf nodesOf
  simp [List.length_zip]

/-- Inserting a brick in front of a sorted run keeps every element of
equal `x`: the elements passed over are strictly smaller. -/
lemma filter_orderedInsert_self (b : Brick) (l : List Brick) :
    (List.orderedInsert (fun a c : Brick => a.x ≤ c.x) b l).filter (fun c => c.x == b.x) =
      b :: l.filter (fun c => c.x == b.x) := by
  induction l with
  | nil => simp
  | cons c cs ih =>
    by_cases h : b.x ≤ c.x
    · simp [List.orderedInsert, h]
    · have hne : (c.x == b.x) = false := by
        simp only [beq_eq_false_iff_ne, ne_eq]
        intro hq
        exact h (le_of_eq hq.symm)
      simp [List.orderedInsert, h, List.filter_cons, hne, ih]

/-- Inserting a brick whose `x` differs from `q` does not change the
elements of `x = q`. -/
lemma filter_orderedInsert_ne (q : ℚ) (b : Brick) (hb : ¬ b.x = q) (l : List Brick) :
    (List.orderedInsert (fun a c : Brick => a.x ≤ c.x) b l).filter (fun c => c.x == q) =
      l.filter (fun c => c.x == q) := by
  induction l with
  | nil => simp [hb]
  | cons c cs ih =>
    by_cases h : b.x ≤ c.x
    · simp [List.orderedInsert, h, List.filter_cons, hb]
    · simp [List.orderedInsert, h, List.filter_cons, ih]

/-- Stability of the sort: restricted to any fixed `x` value, the
sorted list lists the bricks in their original input order. -/
lemma sortBricks_filter_stable (q : ℚ) (l : List Brick) :
    (sortBricks l).filter (fun c => c.x == q) = l.filter (fun c => c.x == q) := by
  induction l with
  | nil => rfl
  | cons b bs ih =>
    show (List.orderedInsert _ b (sortBricks bs)).filter _ = _
    by_cases h : b.x = q
    · subst h
      rw [filter_orderedInsert_self]
      simp [List.filter_cons, ih]
    · rw [filter_orderedInsert_ne q b h]
      simp [List.filter_cons, h, ih]

/-- The detector followed by the assembler: the whole pipeline of the
`/analyze-image` endpoint (lines 314–324) over the contour
abstraction. -/
def detect_then_assemble (img : ImageContours) : Except WorkflowError WorkflowGraph :=
  bricks_to_workflow (detect_bricks_from_image img)

/-- Scenario A of the spec and `example_workflow` (lines 344–351). -/
def scenarioA : List Brick :=
  [⟨"b1", "green", 100, 200⟩, ⟨"b2", "blue", 250, 200⟩, ⟨"b3", "yellow", 400, 200⟩,
    ⟨"b4", "blue", 550, 200⟩, ⟨"b5", "red", 700, 200⟩]

/-- Scenario B of the spec: a blue and a yellow brick, no green and no
red. -/
def scenarioB : List Brick :=
  [⟨"b1", "blue", 10, 0⟩, ⟨"b2", "yellow", 20, 0⟩]

/-- Scenario C of the spec: two green bricks and one red brick. -/
def scenarioC : List Brick :=
  [⟨"b1", "green", 5, 0⟩, ⟨"b2", "green", 50, 0⟩, ⟨"b3", "red", 100, 0⟩]

/-! ### Claims -/

/-- C1: for every successfully returned `WorkflowGraph` from
`bricks_to_workflow`, exactly one node has kind Start and exactly one
node has kind End. -/
theorem C1_exactly_one_start_and_end (bs : List Brick) (g : WorkflowGraph)
    (h : bricks_to_workflow bs = .ok g) :
    (g.nodes.filter fun n => n.type == "Start").length = 1 ∧
    (g.nodes.filter fun n => n.type == "End").length = 1 := by
  obtain ⟨hn, -, hs, he, -⟩ := bricks_to_workflow_ok h
  rw [hn]
  exact ⟨hs, he⟩

/-- Witness for C1 at a concrete two-brick input. -/
theorem C1_witness :
    ((WorkflowGraph.mk [⟨"b1", "Start"⟩, ⟨"b2", "End"⟩] [("b1", "b2")]).nodes.filter
        fun n => n.type == "Start").length = 1 ∧
    ((WorkflowGraph.mk [⟨"b1", "Start"⟩, ⟨"b2", "End"⟩] [("b1", "b2")]).nodes.filter
        fun n => n.type == "End").length = 1 :=
  C1_exactly_one_start_and_end [⟨"b1", "green", 1, 0⟩, ⟨"b2", "red", 2, 0⟩] _ (by rfl)

/-- C2: on every success the node list follows the brick list sorted by
ascending x (consecutive pairs are `≤`-related on x), the edge list has
exactly n−1 entries, and edge i connects node i's identifier to node
i+1's identifier — a single path with no branching and no cycle. -/
theorem C2_sorted_single_path (bs : List Brick) (g : WorkflowGraph)
    (h : bricks_to_workflow bs = .ok g) :
    g.nodes = (sortBricks (validBricks bs)).map mkNode ∧
    List.Chain' (fun a b : Brick => a.x ≤ b.x) (sortBricks (validBricks bs)) ∧
    g.edges.length = g.nodes.length - 1 ∧
    g.edges = (g.nodes.zip g.nodes.tail).map fun p => (p.1.id, p.2.id) := by
  obtain ⟨hn, hedge, -, -, -⟩ := bricks_to_workflow_ok h
  refine ⟨hn, sortBricks_sorted _, ?_, ?_⟩
  · rw [hedge, hn]
    exact edgesOf_length bs
  · rw [hedge, hn]
    exact edgesOf_eq_nodes_zip bs

/-- Witness for C2 at a concrete three-brick input. -/
theorem C2_witness :
    (WorkflowGraph.mk [⟨"b1", "Start"⟩, ⟨"b2", "Action"⟩, ⟨"b3", "End"⟩]
          [("b1", "b2"), ("b2", "b3")]).nodes =
      (sortBricks (validBricks
        [⟨"b1", "green", 1, 0⟩, ⟨"b2", "blue", 2, 0⟩, ⟨"b3", "red", 3, 0⟩])).map mkNode ∧
    List.Chain' (fun a b : Brick => a.x ≤ b.x)
      (sortBricks (validBricks
        [⟨"b1", "green", 1, 0⟩, ⟨"b2", "blue", 2, 0⟩, ⟨"b3", "red", 3, 0⟩])) ∧
    (WorkflowGraph.mk [⟨"b1", "Start"⟩, ⟨"b2", "Action"⟩, ⟨"b3", "End"⟩]
          [("b1", "b2"), ("b2", "b3")]).edges.length =
      (WorkflowGraph.mk [⟨"b1", "Start"⟩, ⟨"b2", "Action"⟩, ⟨"b3", "End"⟩]
          [("b1", "b2"), ("b2", "b3")]).nodes.length - 1 ∧
    (WorkflowGraph.mk [⟨"b1", "Start"⟩, ⟨"b2", "Action"⟩, ⟨"b3", "End"⟩]
          [("b1", "b2"), ("b2", "b3")]).edges =
      ((WorkflowGraph.mk [⟨"b1", "Start"⟩, ⟨"b2", "Action"⟩, ⟨"b3", "End"⟩]
            [("b1", "b2"), ("b2", "b3")]).nodes.zip
          (WorkflowGraph.mk [⟨"b1", "Start"⟩, ⟨"b2", "Action"⟩, ⟨"b3", "End"⟩]
            [("b1", "b2"), ("b2", "b3")]).nodes.tail).map fun p => (p.1.id, p.2.id) :=
  C2_sorted_single_path
    [⟨"b1", "green", 1, 0⟩, ⟨"b2", "blue", 2, 0⟩, ⟨"b3", "red", 3, 0⟩] _ (by rfl)

/-- C3: `bricks_to_workflow` fails exactly when the filtered list is
empty, or the green (Start) count differs from one, or the red (End)
count differs from one; the empty case yields `NoInterpretableObjects`,
and positions are never checked — one green and one red succeed even
with the green brick rightmost. -/
theorem C3_failure_characterisation :
    (∀ bs : List Brick,
      (∃ e, bricks_to_workflow bs = .error e) ↔
        (validBricks bs = [] ∨
          ((validBricks bs).filter fun b => b.color == "green").length ≠ 1 ∨
          ((validBricks bs).filter fun b => b.color == "red").length ≠ 1)) ∧
    (∀ bs : List Brick, validBricks bs = [] →
      bricks_to_workflow bs = .error .noInterpretableObjects) ∧
    bricks_to_workflow [⟨"b1", "red", 10, 0⟩, ⟨"b2", "green", 20, 0⟩] =
      .ok ⟨[⟨"b1", "End"⟩, ⟨"b2", "Start"⟩], [("b1", "b2")]⟩ := by
  refine ⟨?_, ?_, rfl⟩
  · intro bs
    rw [← startCount_eq_green, ← endCount_eq_red]
    constructor
    · rintro ⟨e, he⟩
      by_contra hc
      push_neg at hc
      obtain ⟨hv, hs, hen⟩ := hc
      unfold bricks_to_workflow at he
      rw [if_neg (by simpa [List.isEmpty_iff] using hv),
        if_neg (by simp [hs]), if_neg (by omega),
        if_neg (by simp [hen]), if_neg (by omega)] at he
      cases he
    · intro h
      unfold bricks_to_workflow
      by_cases h1 : (validBricks bs).isEmpty
      · exact ⟨.noInterpretableObjects, by rw [if_pos h1]⟩
      · have hv : validBricks bs ≠ [] := by simpa [List.isEmpty_iff] using h1
        rw [if_neg h1]
        rcases h with h | h | h
        · exact absurd h hv
        · by_cases h2 : startCount bs = 0
          · exact ⟨.missingStart, by rw [if_pos (by simp [h2])]⟩
          · have h3 : startCount bs > 1 := by omega
            exact ⟨.duplicateStart (startCount bs),
              by rw [if_neg (by simp [h2]), if_pos h3]⟩
        · by_cases h2 : startCount bs == 0
          · exact ⟨.missingStart, by rw [if_pos h2]⟩
          · rw [if_neg (by simpa using h2)]
            by_cases h3 : startCount bs > 1
            · exact ⟨.duplicateStart (startCount bs), by rw [if_pos h3]⟩
            · rw [if_neg h3]
              by_cases h4 : endCount bs = 0
              · exact ⟨.missingEnd, by rw [if_pos (by simp [h4])]⟩
              · have h5 : endCount bs > 1 := by omega
                exact ⟨.duplicateEnd (endCount bs),
                  by rw [if_neg (by simp [h4]), if_pos h5]⟩
  · intro bs hv
    unfold bricks_to_workflow
    rw [if_pos (by simp [hv])]

/-- Witness for C3: the empty input fails with
`NoInterpretableObjects`. -/
theorem C3_witness : bricks_to_workflow [] = .error .noInterpretableObjects :=
  C3_failure_characterisation.2.1 [] rfl

/-- C4 counterexample: on Scenario B the assembler returns the single
error `MissingStart`; the result is not an error that reports
`MissingEnd`, so the equally-true End violation is hidden, contrary to
the claim. -/
theorem C4_counterexample :
    bricks_to_workflow scenarioB = .error .missingStart ∧
    (Except.error WorkflowError.missingStart : Except WorkflowError WorkflowGraph) ≠
      .error .missingEnd ∧
    errMessage .missingStart = "Workflow must have exactly one Start node (green brick)" :=
  ⟨rfl, by simp, rfl⟩

/-- C4 (amended): Scenario B fails with `MissingStart`, whose message
speaks only of the Start requirement; the End check is short-circuited
even though its condition (zero End nodes) also holds, so `MissingEnd`
is not reported. -/
theorem C4_missingStart_shortCircuit :
    bricks_to_workflow scenarioB = .error .missingStart ∧
    errMessage .missingStart = "Workflow must have exactly one Start node (green brick)" ∧
    endCount scenarioB = 0 :=
  ⟨rfl, rfl, rfl⟩

/-- C5: a `DuplicateStart` (resp. `DuplicateEnd`) failure always
carries the observed Start (resp. End) count, and Scenario C fails with
`DuplicateStart` carrying observed count 2. -/
theorem C5_duplicate_counts :
    (∀ (bs : List Brick) (k : Nat),
      bricks_to_workflow bs = .error (.duplicateStart k) → k = startCount bs) ∧
    (∀ (bs : List Brick) (k : Nat),
      bricks_to_workflow bs = .error (.duplicateEnd k) → k = endCount bs) ∧
    bricks_to_workflow scenarioC = .error (.duplicateStart 2) := by
  refine ⟨?_, ?_, rfl⟩
  · intro bs k h
    unfold bricks_to_workflow at h
    split at h
    · cases h
    · split at h
      · cases h
      · split at h
        · simp only [Except.error.injEq, WorkflowError.duplicateStart.injEq] at h
          exact h.symm
        · split at h
          · cases h
          · split at h
            · simp at h
            · cases h
  · intro bs k h
    unfold bricks_to_workflow at h
    split at h
    · cases h
    · split at h
      · cases h
      · split at h
        · simp at h
        · split at h
          · cases h
          · split at h
            · simp only [Except.error.injEq, WorkflowError.duplicateEnd.injEq] at h
              exact h.symm
            · cases h

/-- Witness for C5: the count carried on Scenario C is the observed
Start count. -/
theorem C5_witness : 2 = startCount scenarioC :=
  C5_duplicate_counts.1 scenarioC 2 rfl

/-- C6: Scenario A succeeds with node kinds
[Start, Action, Decision, Action, End] in identifier order b1..b5 and
the four consecutive edges. -/
theorem C6_scenarioA :
    bricks_to_workflow scenarioA =
      .ok ⟨[⟨"b1", "Start"⟩, ⟨"b2", "Action"⟩, ⟨"b3", "Decision"⟩, ⟨"b4", "Action"⟩,
          ⟨"b5", "End"⟩],
        [("b1", "b2"), ("b2", "b3"), ("b3", "b4"), ("b4", "b5")]⟩ :=
  rfl

/-- C7: any pixel with hue 2 and any pixel with hue 178 whose
saturation and value lie in the detection band fall inside the red mask
(the union of the two red ranges); a pixel with hue 90 never does. -/
theorem C7_red_wraparound (s v : Nat) (hs₁ : 50 ≤ s) (hs₂ : s ≤ 255)
    (hv₁ : 50 ≤ v) (hv₂ : v ≤ 255) :
    redMask ⟨2, s, v⟩ = true ∧ redMask ⟨178, s, v⟩ = true ∧ redMask ⟨90, s, v⟩ = false := by
  unfold redMask inRange
  refine ⟨?_, ?_, ?_⟩ <;> simp <;> omega

/-- Witness for C7 at saturation 60 and value 60. -/
theorem C7_witness :
    redMask ⟨2, 60, 60⟩ = true ∧ redMask ⟨178, 60, 60⟩ = true ∧
      redMask ⟨90, 60, 60⟩ = false :=
  C7_red_wraparound 60 60 (by decide) (by decide) (by decide) (by decide)

/-- C8: every brick the contour loop emits stems from a contour whose
area is at least the minimum threshold 100 and whose zeroth moment is
nonzero, and its centroid is that contour's first moments divided by
the zeroth moment — regions below the threshold or with zero moment are
silently skipped, so the centroid division is always guarded. -/
theorem C8_detector_skips (color : String) (cs : List Contour) (counter : Nat) (b : Brick)
    (h : b ∈ (processContours color cs counter).1) :
    ∃ c, c ∈ cs ∧ ¬ c.area < 100 ∧ c.m00 ≠ 0 ∧
      b.x = c.m10 / c.m00 ∧ b.y = c.m01 / c.m00 := by
  induction cs generalizing counter with
  | nil => simp [processContours] at h
  | cons c cs ih =>
    unfold processContours at h
    by_cases h1 : c.area < 100
    · rw [if_pos h1] at h
      obtain ⟨d, hd, hrest⟩ := ih counter h
      exact ⟨d, List.mem_cons_of_mem c hd, hrest⟩
    · rw [if_neg h1] at h
      by_cases h2 : c.m00 = 0
      · rw [if_pos h2] at h
        obtain ⟨d, hd, hrest⟩ := ih counter h
        exact ⟨d, List.mem_cons_of_mem c hd, hrest⟩
      · rw [if_neg h2] at h
        rcases List.mem_cons.mp h with hb | hb
        · exact ⟨c, List.mem_cons_self c cs, h1, h2, by rw [hb], by rw [hb]⟩
        · obtain ⟨d, hd, hrest⟩ := ih (counter + 1) hb
          exact ⟨d, List.mem_cons_of_mem c hd, hrest⟩

/-- Witness for C8 at a single accepted contour. -/
theorem C8_witness :
    ∃ c, c ∈ [Contour.mk 200 1 2 3] ∧ ¬ c.area < 100 ∧ c.m00 ≠ 0 ∧
      (Brick.mk "b1" "green" 2 3).x = c.m10 / c.m00 ∧
      (Brick.mk "b1" "green" 2 3).y = c.m01 / c.m00 :=
  C8_detector_skips "green" [⟨200, 1, 2, 3⟩] 1 ⟨"b1", "green", 2, 3⟩
    (by norm_num [processContours]
        rfl)

/-- C9: the pipeline is deterministic — in the embedding both stages
are pure functions of their input (the source reads only its arguments
and the immutable module constants), so running the detector and the
composed pipeline on the same image content yields identical results. -/
theorem C9_pipeline_deterministic (img₁ img₂ : ImageContours) (h : img₁ = img₂) :
    detect_bricks_from_image img₁ = detect_bricks_from_image img₂ ∧
    detect_then_assemble img₁ = detect_then_assemble img₂ := by
  subst h
  exact ⟨rfl, rfl⟩

/-- Witness for C9 at a concrete image. -/
theorem C9_witness :
    detect_bricks_from_image ⟨[⟨200, 1, 2, 3⟩], [], [], [⟨150, 1, 5, 7⟩]⟩ =
      detect_bricks_from_image ⟨[⟨200, 1, 2, 3⟩], [], [], [⟨150, 1, 5, 7⟩]⟩ ∧
    detect_then_assemble ⟨[⟨200, 1, 2, 3⟩], [], [], [⟨150, 1, 5, 7⟩]⟩ =
      detect_then_assemble ⟨[⟨200, 1, 2, 3⟩], [], [], [⟨150, 1, 5, 7⟩]⟩ :=
  C9_pipeline_deterministic ⟨[⟨200, 1, 2, 3⟩], [], [], [⟨150, 1, 5, 7⟩]⟩
    ⟨[⟨200, 1, 2, 3⟩], [], [], [⟨150, 1, 5, 7⟩]⟩ rfl

/-- C10: the sort underlying a successful assembly is stable — within
any fixed x value the sorted valid bricks keep their input order, so
equal-x ties in the node list are resolved by input position,
deterministically on every run. -/
theorem C10_stable_ties (bs : List Brick) (g : WorkflowGraph) (q : ℚ)
    (h : bricks_to_workflow bs = .ok g) :
    g.nodes = (sortBricks (validBricks bs)).map mkNode ∧
    (sortBricks (validBricks bs)).filter (fun b => b.x == q) =
      (validBricks bs).filter (fun b => b.x == q) := by
  obtain ⟨hn, -, -, -, -⟩ := bricks_to_workflow_ok h
  exact ⟨hn, sortBricks_filter_stable q _⟩

/-- Witness for C10 at an input with two bricks of equal x. -/
theorem C10_witness :
    (WorkflowGraph.mk
        [⟨"b1", "Start"⟩, ⟨"b2", "Action"⟩, ⟨"b3", "Action"⟩, ⟨"b4", "End"⟩]
        [("b1", "b2"), ("b2", "b3"), ("b3", "b4")]).nodes =
      (sortBricks (validBricks
        [⟨"b1", "green", 1, 0⟩, ⟨"b2", "blue", 2, 5⟩, ⟨"b3", "blue", 2, 9⟩,
          ⟨"b4", "red", 3, 0⟩])).map mkNode ∧
    (sortBricks (validBricks
        [⟨"b1", "green", 1, 0⟩, ⟨"b2", "blue", 2, 5⟩, ⟨"b3", "blue", 2, 9⟩,
          ⟨"b4", "red", 3, 0⟩])).filter (fun b => b.x == 2) =
      (validBricks
        [⟨"b1", "green", 1, 0⟩, ⟨"b2", "blue", 2, 5⟩, ⟨"b3", "blue", 2, 9⟩,
          ⟨"b4", "red", 3, 0⟩]).filter (fun b => b.x == 2) :=
  C10_stable_ties
    [⟨"b1", "green", 1, 0⟩, ⟨"b2", "blue", 2, 5⟩, ⟨"b3", "blue", 2, 9⟩, ⟨"b4", "red", 3, 0⟩]
    _ 2 (by rfl)

end LegoWorkflow
